import Mathlib

/-!
Verification of the `mix_link` wire-protocol crate.

Shallow embedding conventions:
* bytes are `Nat` values (well-formed when `< 256`); byte strings are `List Nat`;
* Rust `u32` arithmetic is `Nat` with explicit reduction `% 2^32` (release,
  i.e. wrapping, semantics);
* the external `snow` Noise engine is abstracted by oracles (`NoiseOps`,
  `TransportOps`): a handshake/transport state is an opaque `Nat`, and each
  Noise call maps a state and an input to an optional successor state and
  output (`none` = the Noise call fails);
* Rust methods that can panic (`unwrap`, `assert_eq!`, slice-length panics)
  return `Option`: `none` models a panic, `some (receiver, result)` models a
  normal return together with the mutated receiver;
* `HashMap<PublicKey, bool>` fields are embedded as the list of their keys,
  since the source only ever calls `get(k).is_some()`.
-/

set_option maxRecDepth 4000

namespace MixLink

/-! ### constants.rs -/

def PROLOGUE : List Nat := [1]

def PROLOGUE_SIZE : Nat := 1

def NOISE_MESSAGE_MAX_SIZE : Nat := 65535

def KEY_SIZE : Nat := 32

def MAC_SIZE : Nat := 16

def MAX_ADDITIONAL_DATA_SIZE : Nat := 255

def AUTH_MESSAGE_SIZE : Nat := 1 + 8 + MAX_ADDITIONAL_DATA_SIZE

def NOISE_HANDSHAKE_MESSAGE1_SIZE : Nat := 1600 + PROLOGUE_SIZE

def NOISE_HANDSHAKE_MESSAGE2_SIZE : Nat := 1680 + AUTH_MESSAGE_SIZE

def NOISE_HANDSHAKE_MESSAGE3_SIZE : Nat := 328

def NOISE_MESSAGE_HEADER_SIZE : Nat := MAC_SIZE + 4

/-- Modelled from the spec: `messages.rs` imports `HEADER_SIZE` from
`constants.rs`, but the definition is missing from the sources provided;
per spec §3/§4.4 the transport header plaintext is the 4-byte big-endian
`u32` ciphertext length, so `HEADER_SIZE = 4`. -/
def HEADER_SIZE : Nat := 4

/-! ### byteorder: big-endian u32/u64 codec -/

/-- `BigEndian::write_u32`: the four big-endian base-256 digits of `n % 2^32`. -/
def writeU32BE (n : Nat) : List Nat :=
  [n / 2 ^ 24 % 256, n / 2 ^ 16 % 256, n / 2 ^ 8 % 256, n % 256]

/-- `BigEndian::read_u32`: read the first four bytes of `b` as big-endian. -/
def readU32BE (b : List Nat) : Nat :=
  b.getD 0 0 * 2 ^ 24 + b.getD 1 0 * 2 ^ 16 + b.getD 2 0 * 2 ^ 8 + b.getD 3 0

/-- `BigEndian::write_u64`. -/
def writeU64BE (n : Nat) : List Nat :=
  [n / 2 ^ 56 % 256, n / 2 ^ 48 % 256, n / 2 ^ 40 % 256, n / 2 ^ 32 % 256,
   n / 2 ^ 24 % 256, n / 2 ^ 16 % 256, n / 2 ^ 8 % 256, n % 256]

/-- Rust `u32` wrapping subtraction `a.wrapping_sub(b)` (both operands reduced
to `u32` first, matching the `as u32` casts in the source). -/
def wrapSub32 (a b : Nat) : Nat :=
  (a % 2 ^ 32 + (2 ^ 32 - b % 2 ^ 32)) % 2 ^ 32

/-- A fixed-size output buffer of `size` zero bytes into which a payload of at
most `size` bytes has been written: the payload followed by the untouched zero
tail (Rust `let mut buf = [0u8; size]` after `read_message` wrote the payload). -/
def bufferFill (size : Nat) (payload : List Nat) : List Nat :=
  payload.take size ++ List.replicate (size - payload.length) 0

/-! ### errors.rs (the module is referenced from `src/` but its file is not
among the provided sources; variants are modelled from the spec §7 together
with the variant names used at call sites in `messages.rs` / `sync.rs`). -/

inductive AuthenticationError where
  | InvalidSize
deriving DecidableEq, Repr

inductive ClientHandshakeError where
  | Noise1WriteError
  | Noise2ReadError
  | Noise3WriteError
  | AuthenticationError
  | FailedToGetRemoteStatic
deriving DecidableEq, Repr

inductive ServerHandshakeError where
  | InvalidStateError
  | PrologueMismatchError
  | Noise1ReadError
  | Noise2WriteError
  | Noise3ReadError
  | AuthenticationError
deriving DecidableEq, Repr

inductive HandshakeError where
  | InvalidNoiseSpecError
  | NoPeerKeyError
  | SessionCreateError
  | InvalidHandshakeFinalize
  | NoiseStateError
  | IoError
deriving DecidableEq, Repr

inductive SendMessageError where
  | InvalidMessageSize
  | EncryptFail
  | IoError
deriving DecidableEq, Repr

inductive ReceiveMessageError where
  | DecryptFail
  | CommandDecodeError
  | IoError
deriving DecidableEq, Repr

/-! ### messages.rs: AuthenticateMessage codec -/

structure AuthenticateMessage where
  ad : List Nat
  unix_time : Nat
deriving DecidableEq, Repr

namespace AuthenticateMessage

/-- `AuthenticateMessage::from_bytes`. -/
def from_bytes (b : List Nat) : Option AuthenticateMessage :=
  if b.length ≠ AUTH_MESSAGE_SIZE then none
  else
    let ad_len := b.getD 0 0
    some { ad := (b.drop 1).take ad_len
           unix_time := readU32BE (b.drop (1 + MAX_ADDITIONAL_DATA_SIZE)) }

/-- `AuthenticateMessage::to_vec`. -/
def to_vec (m : AuthenticateMessage) : Option (List Nat) :=
  if m.ad.length > MAX_ADDITIONAL_DATA_SIZE then none
  else
    some ([m.ad.length % 256] ++ m.ad ++
          List.replicate (MAX_ADDITIONAL_DATA_SIZE - m.ad.length) 0 ++
          writeU32BE m.unix_time)

end AuthenticateMessage

/-! ### messages.rs: peer credentials and the authenticator -/

abbrev PublicKey : Type := List Nat

structure PeerCredentials where
  additional_data : List Nat
  public_key : PublicKey
deriving DecidableEq, Repr

structure ServerAuthenticatorState where
  mix_map : List PublicKey
deriving DecidableEq, Repr

structure ProviderAuthenticatorState where
  mix_map : List PublicKey
  client_map : List PublicKey
  from_client : Bool
  from_mix : Bool
deriving DecidableEq, Repr

structure ClientAuthenticatorState where
  peer_public_key : PublicKey
deriving DecidableEq, Repr

inductive PeerAuthenticator where
  | Server (state : ServerAuthenticatorState)
  | Provider (state : ProviderAuthenticatorState)
  | Client (state : ClientAuthenticatorState)
deriving DecidableEq, Repr

namespace PeerAuthenticator

/-- `PeerAuthenticator::is_peer_valid` (`&mut self`): returns the mutated
authenticator together with the boolean verdict. -/
def is_peer_valid (a : PeerAuthenticator) (peer_credentials : PeerCredentials) :
    PeerAuthenticator × Bool :=
  match a with
  | .Client state => (a, state.peer_public_key == peer_credentials.public_key)
  | .Server state => (a, state.mix_map.contains peer_credentials.public_key)
  | .Provider state =>
      if state.mix_map.contains peer_credentials.public_key then
        (.Provider { state with from_mix := true }, true)
      else if state.client_map.contains peer_credentials.public_key then
        (.Provider { state with from_client := true }, true)
      else (a, false)

/-- `PeerAuthenticator::is_peer_client`. -/
def is_peer_client : PeerAuthenticator → Bool
  | .Client _ => false
  | .Server _ => false
  | .Provider state => state.from_client

end PeerAuthenticator

/-- Folding `is_peer_valid` over a sequence of presented credentials,
keeping only the accumulated authenticator mutations. -/
def runValidations (a : PeerAuthenticator) (l : List PeerCredentials) :
    PeerAuthenticator :=
  l.foldl (fun acc pc => (acc.is_peer_valid pc).1) a

/-! ### messages.rs: handshake state machine -/

inductive State where
  | Init
  | SentClientHandshake1
  | ReceivedServerHandshake1
  | ReceivedClientHandshake1
  | SentServerHandshake1
  | DataTransfer
  | Disconnected
  | Invalid
deriving DecidableEq, Repr

structure SessionConfig where
  authenticator : PeerAuthenticator
  authentication_key : List Nat
  peer_public_key : Option PublicKey
  additional_data : List Nat
deriving DecidableEq, Repr

/-- The `snow` Noise handshake engine, abstracted: a handshake state is an
opaque `Nat`; `write`/`read` map a state and a payload/ciphertext to the
successor state and the produced ciphertext/payload (`none` = the Noise call
returns an error); `remote_static` is `get_remote_static`. -/
structure NoiseOps where
  write : Nat → List Nat → Option (Nat × List Nat)
  read : Nat → List Nat → Option (Nat × List Nat)
  remote_static : Nat → Option (List Nat)
  into_transport : Nat → Option Nat

/-- The `snow` transport engine, abstracted the same way. -/
structure TransportOps where
  write : Nat → List Nat → Option (Nat × List Nat)
  read : Nat → List Nat → Option (Nat × List Nat)
  rekey_incoming : Nat → Nat
  rekey_outgoing : Nat → Nat

structure MessageBuilder where
  handshake_state : Option Nat
  transport_state : Option Nat
  state : State
  additional_data : List Nat
  authenticator : PeerAuthenticator
  is_initiator : Bool
  clock_skew : Nat
  peer_credentials : Option PeerCredentials
deriving DecidableEq, Repr

namespace MessageBuilder

/-- `MessageBuilder::new`; `hs` is the Noise handshake state produced by the
(abstracted) `snow` builder. Parse and build failures of the hard-coded Noise
parameter string are not modelled (the successful build is the `hs` argument). -/
def new (config : SessionConfig) (is_initiator : Bool) (hs : Nat) :
    Except HandshakeError MessageBuilder :=
  if is_initiator && config.peer_public_key.isNone then
    .error .NoPeerKeyError
  else
    .ok { handshake_state := some hs
          transport_state := none
          state := .Init
          additional_data := config.additional_data
          authenticator := config.authenticator
          is_initiator := is_initiator
          clock_skew := 0
          peer_credentials := none }

/-- `MessageBuilder::wipe`. -/
def wipe (b : MessageBuilder) : MessageBuilder :=
  { b with additional_data := [], clock_skew := 0 }

/-- `MessageBuilder::sent_client_handshake1`. -/
def sent_client_handshake1 (b : MessageBuilder) : MessageBuilder :=
  { b with state := .SentClientHandshake1 }

/-- `MessageBuilder::sent_client_handshake2`. -/
def sent_client_handshake2 (b : MessageBuilder) : MessageBuilder :=
  { b with state := .DataTransfer }

/-- `MessageBuilder::sent_server_handshake1`. -/
def sent_server_handshake1 (b : MessageBuilder) : MessageBuilder :=
  { b with state := .SentServerHandshake1 }

/-- `MessageBuilder::client_handshake1`. `none` models a panic: the
`handshake_state` unwrap, or the `copy_from_slice` into `msg1[1..]` when the
Noise write did not produce exactly 1600 bytes. -/
def client_handshake1 (b : MessageBuilder) (ops : NoiseOps) :
    Option (MessageBuilder × Except ClientHandshakeError (List Nat)) :=
  match b.handshake_state with
  | none => none
  | some hs =>
    match ops.write hs [] with
    | none => some (b, .error .Noise1WriteError)
    | some (hs2, ct) =>
      let b := { b with handshake_state := some hs2 }
      if ct.length = NOISE_HANDSHAKE_MESSAGE1_SIZE - PROLOGUE_SIZE then
        some (b, .ok (PROLOGUE ++ ct))
      else none

/-- `MessageBuilder::received_server_handshake1`; `now` is the current Unix
time in seconds. The 264-byte `raw_auth` output buffer is `bufferFill`ed by
the Noise read. -/
def received_server_handshake1 (b : MessageBuilder) (ops : NoiseOps)
    (now : Nat) (message : List Nat) :
    Option (MessageBuilder × Except ClientHandshakeError Unit) :=
  match b.handshake_state with
  | none => none
  | some hs =>
    match ops.read hs message with
    | none => some (b, .error .Noise2ReadError)
    | some (hs2, payload) =>
      let b := { b with handshake_state := some hs2 }
      match AuthenticateMessage.from_bytes (bufferFill AUTH_MESSAGE_SIZE payload) with
      | none => some (b, .error .AuthenticationError)
      | some peer_auth =>
        match ops.remote_static hs2 with
        | none => some (b, .error .FailedToGetRemoteStatic)
        | some raw_peer_key =>
          if raw_peer_key.length < KEY_SIZE then none
          else
            let peer_key := raw_peer_key.take KEY_SIZE
            let pc : PeerCredentials :=
              { additional_data := peer_auth.ad, public_key := peer_key }
            let b := { b with peer_credentials := some pc }
            let av := b.authenticator.is_peer_valid pc
            let b := { b with authenticator := av.1 }
            if av.2 then
              some ({ b with clock_skew := wrapSub32 now peer_auth.unix_time
                             state := .ReceivedServerHandshake1 }, .ok ())
            else
              some (b, .error .AuthenticationError)

/-- `MessageBuilder::client_handshake2`. `none` models a panic: the unwraps,
or the `assert_eq!(NOISE_HANDSHAKE_MESSAGE3_SIZE, _len)`. -/
def client_handshake2 (b : MessageBuilder) (ops : NoiseOps) :
    Option (MessageBuilder × Except ClientHandshakeError (List Nat)) :=
  match b.handshake_state with
  | none => none
  | some hs =>
    let our_auth : AuthenticateMessage := { ad := b.additional_data, unix_time := 0 }
    match our_auth.to_vec with
    | none => none
    | some payload =>
      match ops.write hs payload with
      | none => some (b, .error .Noise3WriteError)
      | some (hs2, ct) =>
        let b := { b with handshake_state := some hs2 }
        if ct.length = NOISE_HANDSHAKE_MESSAGE3_SIZE then some (b, .ok ct)
        else none

/-- `MessageBuilder::received_client_handshake1`. `none` models a panic: the
unwraps, or the `assert_eq!(NOISE_HANDSHAKE_MESSAGE2_SIZE, _len)`. -/
def received_client_handshake1 (b : MessageBuilder) (ops : NoiseOps)
    (now : Nat) (message : List Nat) :
    Option (MessageBuilder × Except ServerHandshakeError (List Nat)) :=
  if b.state ≠ State.Init then some (b, .error .InvalidStateError)
  else if message.take PROLOGUE_SIZE ≠ PROLOGUE then
    some (b, .error .PrologueMismatchError)
  else
    match b.handshake_state with
    | none => none
    | some hs =>
      match ops.read hs (message.drop PROLOGUE_SIZE) with
      | none => some (b, .error .Noise1ReadError)
      | some (hs2, _payload) =>
        let b := { b with handshake_state := some hs2
                          state := .ReceivedClientHandshake1 }
        let our_auth : AuthenticateMessage := { ad := b.additional_data
                                                unix_time := now % 2 ^ 32 }
        match our_auth.to_vec with
        | none => none
        | some payload =>
          match ops.write hs2 payload with
          | none => some (b, .error .Noise2WriteError)
          | some (hs3, ct) =>
            let b := { b with handshake_state := some hs3 }
            if ct.length = NOISE_HANDSHAKE_MESSAGE2_SIZE then some (b, .ok ct)
            else none

/-- `MessageBuilder::received_client_handshake2`. `none` models a panic: the
unwraps (`from_bytes(..).unwrap()`, `get_remote_static().unwrap()`, the
`array_ref!` length). -/
def received_client_handshake2 (b : MessageBuilder) (ops : NoiseOps)
    (message : List Nat) :
    Option (MessageBuilder × Except ServerHandshakeError Unit) :=
  if b.state ≠ State.SentServerHandshake1 then some (b, .error .InvalidStateError)
  else
    match b.handshake_state with
    | none => none
    | some hs =>
      match ops.read hs message with
      | none => some (b, .error .Noise3ReadError)
      | some (hs2, payload) =>
        let b := { b with handshake_state := some hs2 }
        match AuthenticateMessage.from_bytes (bufferFill AUTH_MESSAGE_SIZE payload) with
        | none => none
        | some peer_auth =>
          match ops.remote_static hs2 with
          | none => none
          | some raw_peer_key =>
            if raw_peer_key.length < KEY_SIZE then none
            else
              let peer_key := raw_peer_key.take KEY_SIZE
              let pc : PeerCredentials :=
                { additional_data := peer_auth.ad, public_key := peer_key }
              let b := { b with peer_credentials := some pc }
              let av := b.authenticator.is_peer_valid pc
              let b := { b with authenticator := av.1 }
              if av.2 then some ({ b with state := .DataTransfer }, .ok ())
              else some (b, .error .AuthenticationError)

/-- `MessageBuilder::into_transport_mode`. -/
def into_transport_mode (b : MessageBuilder) (ops : NoiseOps) :
    Option (Except HandshakeError MessageBuilder) :=
  match b.handshake_state with
  | none => none
  | some hs =>
    match ops.into_transport hs with
    | none => some (.error .NoiseStateError)
    | some ts =>
      some (.ok { b with handshake_state := none, transport_state := some ts })

/-- `MessageBuilder::rekey_incoming`. -/
def rekey_incoming (b : MessageBuilder) (ops : TransportOps) :
    Option MessageBuilder :=
  match b.transport_state with
  | none => none
  | some ts => some { b with transport_state := some (ops.rekey_incoming ts) }

/-- `MessageBuilder::rekey_outgoing`. -/
def rekey_outgoing (b : MessageBuilder) (ops : TransportOps) :
    Option MessageBuilder :=
  match b.transport_state with
  | none => none
  | some ts => some { b with transport_state := some (ops.rekey_outgoing ts) }

/-- `MessageBuilder::encrypt_message`. -/
def encrypt_message (b : MessageBuilder) (ops : TransportOps)
    (message : List Nat) :
    Option (MessageBuilder × Except SendMessageError (List Nat)) :=
  let ct_len := MAC_SIZE + message.length
  if ct_len > NOISE_MESSAGE_MAX_SIZE then some (b, .error .InvalidMessageSize)
  else
    let ct_hdr := writeU32BE ct_len
    match b.transport_state with
    | none => none
    | some ts =>
      match ops.write ts ct_hdr with
      | none => some (b, .error .EncryptFail)
      | some (ts2, ciphertext_header) =>
        let b := { b with transport_state := some ts2 }
        match ops.write ts2 message with
        | none => some (b, .error .EncryptFail)
        | some (ts3, ciphertext) =>
          some ({ b with transport_state := some ts3 },
                .ok (ciphertext_header ++ ciphertext))

/-- `MessageBuilder::decrypt_message_header`. `none` models a panic: the
unwrap, the slice `message[..NOISE_MESSAGE_HEADER_SIZE]` on a short input,
or the `assert_eq!(x, 4)`. -/
def decrypt_message_header (b : MessageBuilder) (ops : TransportOps)
    (message : List Nat) :
    Option (MessageBuilder × Except ReceiveMessageError Nat) :=
  if message.length < NOISE_MESSAGE_HEADER_SIZE then none
  else
    match b.transport_state with
    | none => none
    | some ts =>
      match ops.read ts (message.take NOISE_MESSAGE_HEADER_SIZE) with
      | none => some (b, .error .DecryptFail)
      | some (ts2, header) =>
        if header.length = 4 then
          some ({ b with transport_state := some ts2 }, .ok (readU32BE header))
        else none

/-- `MessageBuilder::decrypt_message`. -/
def decrypt_message (b : MessageBuilder) (ops : TransportOps)
    (message : List Nat) :
    Option (MessageBuilder × Except ReceiveMessageError (List Nat)) :=
  match b.transport_state with
  | none => none
  | some ts =>
    match ops.read ts message with
    | none => some (b, .error .DecryptFail)
    | some (ts2, plaintext) =>
      some ({ b with transport_state := some ts2 }, .ok plaintext)

end MessageBuilder

/-! ### commands.rs (the module is referenced from `src/` but its file is not
among the provided sources; the type and codec are modelled from spec §4.1:
one-byte tag, three zero reserved bytes, big-endian `u32` body length, body.
Variant and field names follow the uses in `tests/command_vectors_test.rs`
and `src/messages.rs`.) -/

/-- Modelled from the spec: the command set of §4.1 (`commands.rs` is missing
from the provided sources). -/
inductive Command where
  | NoOp
  | Disconnect
  | SendPacket (sphinx_packet : List Nat)
  | RetrieveMessage (sequence : Nat)
  | MessageEmpty (sequence : Nat)
  | MessageMessage (queue_size_hint : Nat) (sequence : Nat) (payload : List Nat)
  | MessageAck (queue_size_hint : Nat) (sequence : Nat) (id : List Nat)
      (payload : List Nat)
  | GetConsensus (epoch : Nat)
  | Consensus (error_code : Nat) (payload : List Nat)
deriving DecidableEq, Repr

namespace Command

/-- Modelled from the spec: the one-byte type tag of §4.1. -/
def tag : Command → Nat
  | .NoOp => 0x00
  | .Disconnect => 0x01
  | .SendPacket _ => 0x02
  | .RetrieveMessage _ => 0x10
  | .MessageEmpty _ => 0x11
  | .MessageMessage _ _ _ => 0x12
  | .MessageAck _ _ _ _ => 0x13
  | .GetConsensus _ => 0x20
  | .Consensus _ _ => 0x21

/-- Modelled from the spec: the body layout of §4.1 (the `MessageAck` SURB id
is a 16-byte field; well-formed values have `id.length = 16`). -/
def body : Command → List Nat
  | .NoOp => []
  | .Disconnect => []
  | .SendPacket sphinx_packet => sphinx_packet
  | .RetrieveMessage sequence => writeU32BE sequence
  | .MessageEmpty sequence => writeU32BE sequence
  | .MessageMessage queue_size_hint sequence payload =>
      [queue_size_hint % 256] ++ writeU32BE sequence ++ payload
  | .MessageAck queue_size_hint sequence id payload =>
      [queue_size_hint % 256] ++ writeU32BE sequence ++ id ++ payload
  | .GetConsensus epoch => writeU64BE epoch
  | .Consensus error_code payload => [error_code % 256] ++ payload

/-- Modelled from the spec: `Command::to_vec` per §4.1. -/
def to_vec (c : Command) : List Nat :=
  [c.tag, 0, 0, 0] ++ writeU32BE c.body.length ++ c.body

/-- Modelled from the spec: `Command::from_bytes` per §4.1 (reject bad lengths
and unknown tags; decoding is total, malformed frames yield `none`). -/
def from_bytes (raw : List Nat) : Option Command :=
  if raw.length < 8 then none
  else
    let tag := raw.getD 0 0
    let n := readU32BE (raw.drop 4)
    let bdy := raw.drop 8
    if bdy.length ≠ n then none
    else if tag = 0x00 then if n = 0 then some .NoOp else none
    else if tag = 0x01 then if n = 0 then some .Disconnect else none
    else if tag = 0x02 then some (.SendPacket bdy)
    else if tag = 0x10 then
      if n = 4 then some (.RetrieveMessage (readU32BE bdy)) else none
    else if tag = 0x11 then
      if n = 4 then some (.MessageEmpty (readU32BE bdy)) else none
    else if tag = 0x12 then
      if n ≥ 5 then
        some (.MessageMessage (bdy.getD 0 0) (readU32BE (bdy.drop 1)) (bdy.drop 5))
      else none
    else if tag = 0x13 then
      if n ≥ 21 then
        some (.MessageAck (bdy.getD 0 0) (readU32BE (bdy.drop 1))
          ((bdy.drop 5).take 16) (bdy.drop 21))
      else none
    else if tag = 0x20 then
      if n = 8 then
        some (.GetConsensus (readU32BE bdy * 2 ^ 32 + readU32BE (bdy.drop 4)))
      else none
    else if tag = 0x21 then
      if n ≥ 1 then some (.Consensus (bdy.getD 0 0) (bdy.drop 1)) else none
    else none

end Command

/-! ### sync.rs: the Session layer

The TCP stream is embedded as two byte lists: `wire_in` (bytes not yet read
from the peer) and `wire_out` (bytes written to the peer so far). The
handshake-phase fields of `Session` are elided; the operations modelled here
(`send_command`, `recv_command`, `finalize_handshake`) all act on the
transport-phase builder behind the mutex. -/

def MAC_LEN : Nat := 16

def MAX_MSG_LEN : Nat := 1048576

structure Session where
  wire_in : List Nat
  wire_out : List Nat
  is_initiator : Bool
  transport_builder : MessageBuilder
deriving DecidableEq, Repr

namespace Session

/-- `Session::send_command`. `none` models a panic (absent transport state). -/
def send_command (s : Session) (ops : TransportOps) (cmd : Command) :
    Option (Session × Except SendMessageError Unit) :=
  let ct := cmd.to_vec
  let ct_len := MAC_LEN + ct.length
  if ct_len > MAX_MSG_LEN then some (s, .error .InvalidMessageSize)
  else
    match s.transport_builder.encrypt_message ops ct with
    | none => none
    | some (b, .error e) => some ({ s with transport_builder := b }, .error e)
    | some (b, .ok to_send) =>
      match b.rekey_outgoing ops with
      | none => none
      | some b =>
        some ({ s with transport_builder := b
                       wire_out := s.wire_out ++ to_send }, .ok ())

/-- `Session::recv_command`. A `read_exact` that runs out of stream bytes is
the I/O error; `none` models a panic inside the decrypt helpers. -/
def recv_command (s : Session) (ops : TransportOps) :
    Option (Session × Except ReceiveMessageError Command) :=
  if s.wire_in.length < MAC_LEN + 4 then some (s, .error .IoError)
  else
    let header_ciphertext := s.wire_in.take (MAC_LEN + 4)
    let s := { s with wire_in := s.wire_in.drop (MAC_LEN + 4) }
    match s.transport_builder.decrypt_message_header ops header_ciphertext with
    | none => none
    | some (b, .error e) => some ({ s with transport_builder := b }, .error e)
    | some (b, .ok ct_len) =>
      let s := { s with transport_builder := b }
      if s.wire_in.length < ct_len then some (s, .error .IoError)
      else
        let ct := s.wire_in.take ct_len
        let s := { s with wire_in := s.wire_in.drop ct_len }
        match s.transport_builder.decrypt_message ops ct with
        | none => none
        | some (b, .error e) => some ({ s with transport_builder := b }, .error e)
        | some (b, .ok bdy) =>
          match b.rekey_incoming ops with
          | none => none
          | some b =>
            let s := { s with transport_builder := b }
            match Command.from_bytes bdy with
            | none => some (s, .error .CommandDecodeError)
            | some c => some (s, .ok c)

/-- `Session::finalize_handshake`. The initiator receives one command and
requires it to be `NoOp`; the responder sends a `NoOp`. The two `unwrap`s in
the source are the `none` cases. -/
def finalize_handshake (s : Session) (ops : TransportOps) :
    Option (Session × Except HandshakeError Unit) :=
  if s.is_initiator then
    match s.recv_command ops with
    | none => none
    | some (_, .error _) => none
    | some (s2, .ok cmd) =>
      match cmd with
      | .NoOp => some (s2, .ok ())
      | _ => some (s2, .error .InvalidHandshakeFinalize)
  else
    match s.send_command ops Command.NoOp with
    | none => none
    | some (_, .error _) => none
    | some (s2, .ok _) => some (s2, .ok ())

end Session

/-! ### The driver-ordered step relation and invariants (C3), and the
concrete inputs used by witnesses and the counterexample -/

/-- A transport-phase builder at concrete values, used by witnesses. -/
def wSendBuilder : MessageBuilder :=
  { handshake_state := none, transport_state := some 0
    state := .DataTransfer, additional_data := []
    authenticator := .Client ⟨[]⟩
    is_initiator := true, clock_skew := 0
    peer_credentials := none }

/-- A transport-phase session at concrete values, used by witnesses. -/
def wSendSession : Session :=
  { wire_in := [], wire_out := [], is_initiator := true
    transport_builder := wSendBuilder }

/-- A concrete transport oracle: encryption is the identity, rekey is `id`. -/
def wIdOps : TransportOps :=
  { write := fun st m => some (st, m), read := fun st m => some (st, m)
    rekey_incoming := id, rekey_outgoing := id }

/-- The peer static key used by the C9 witness. -/
def w9key : List Nat := List.replicate 32 3

/-- An initiator-side builder awaiting message 2, used by the C9 witness. -/
def w9builder : MessageBuilder :=
  { handshake_state := some 0, transport_state := none
    state := .SentClientHandshake1, additional_data := []
    authenticator := .Client ⟨w9key⟩, is_initiator := true
    clock_skew := 0, peer_credentials := none }

/-- The server auth payload received by the C9 witness: empty additional
data, timestamp 100. -/
def w9payload : List Nat := 0 :: (List.replicate 255 0 ++ [0, 0, 0, 100])

/-- A Noise oracle whose read yields `w9payload` and whose remote static is
`w9key`, used by the C9 witness. -/
def w9ops : NoiseOps :=
  { write := fun _ _ => none
    read := fun st _ => some (st + 1, w9payload)
    remote_static := fun _ => some w9key
    into_transport := fun _ => none }

/-! ## Theorems -/


/-- One builder operation, as invoked by the `sync.rs` `handshake()` driver
(guards record the state the driver is in at each call site, and the
`sent_*` setters are called right after the corresponding frame operation).
Error returns are steps too — the mutated builder is observable; `none`
results (panics) are not. -/
inductive Step : MessageBuilder → MessageBuilder → Prop where
  | client_handshake1 (b b' : MessageBuilder) (ops : NoiseOps)
      (r : Except ClientHandshakeError (List Nat)) :
      b.is_initiator = true → b.state = State.Init →
      b.client_handshake1 ops = some (b', r) → Step b b'
  | sent_client_handshake1 (b : MessageBuilder) :
      b.is_initiator = true → b.state = State.Init →
      Step b b.sent_client_handshake1
  | received_server_handshake1 (b b' : MessageBuilder) (ops : NoiseOps)
      (now : Nat) (message : List Nat) (r : Except ClientHandshakeError Unit) :
      b.is_initiator = true → b.state = State.SentClientHandshake1 →
      b.received_server_handshake1 ops now message = some (b', r) → Step b b'
  | client_handshake2 (b b' : MessageBuilder) (ops : NoiseOps)
      (r : Except ClientHandshakeError (List Nat)) :
      b.is_initiator = true → b.state = State.ReceivedServerHandshake1 →
      b.client_handshake2 ops = some (b', r) → Step b b'
  | sent_client_handshake2 (b : MessageBuilder) :
      b.is_initiator = true → b.state = State.ReceivedServerHandshake1 →
      Step b b.sent_client_handshake2
  | received_client_handshake1 (b b' : MessageBuilder) (ops : NoiseOps)
      (now : Nat) (message : List Nat)
      (r : Except ServerHandshakeError (List Nat)) :
      b.is_initiator = false →
      b.received_client_handshake1 ops now message = some (b', r) → Step b b'
  | sent_server_handshake1 (b : MessageBuilder) :
      b.is_initiator = false → b.state = State.ReceivedClientHandshake1 →
      Step b b.sent_server_handshake1
  | received_client_handshake2 (b b' : MessageBuilder) (ops : NoiseOps)
      (message : List Nat) (r : Except ServerHandshakeError Unit) :
      b.is_initiator = false →
      b.received_client_handshake2 ops message = some (b', r) → Step b b'
  | into_transport_mode (b b' : MessageBuilder) (ops : NoiseOps) :
      b.state = State.DataTransfer →
      b.into_transport_mode ops = some (.ok b') → Step b b'
  | wipe (b : MessageBuilder) : Step b b.wipe

/-- A builder state reachable from some `MessageBuilder::new` result through
the driver-ordered operations. -/
def Reachable (b : MessageBuilder) : Prop :=
  ∃ (cfg : SessionConfig) (ii : Bool) (hs : Nat) (b0 : MessageBuilder),
    MessageBuilder.new cfg ii hs = .ok b0 ∧ Relation.ReflTransGen Step b0 b

/-- The invariant claimed by the spec: credentials present iff the state is
`ReceivedServerHandshake1`, `DataTransfer` or `Disconnected`. -/
def CredInv (b : MessageBuilder) : Prop :=
  b.peer_credentials.isSome = true ↔
    (b.state = State.ReceivedServerHandshake1 ∨ b.state = State.DataTransfer ∨
     b.state = State.Disconnected)

/-- The amended invariant: states in the claimed set always carry
credentials, but credentials may additionally be present in
`SentClientHandshake1` / `SentServerHandshake1` (left behind by an
authenticator rejection inside `received_server_handshake1` /
`received_client_handshake2`, which stores `peer_credentials` before the
`is_peer_valid` check and returns an error without resetting them). -/
def CredInvAmended (b : MessageBuilder) : Prop :=
  ((b.state = State.ReceivedServerHandshake1 ∨ b.state = State.DataTransfer ∨
      b.state = State.Disconnected) → b.peer_credentials.isSome = true)
  ∧ (b.peer_credentials.isSome = true →
      (b.state = State.ReceivedServerHandshake1 ∨ b.state = State.DataTransfer ∨
       b.state = State.Disconnected ∨ b.state = State.SentClientHandshake1 ∨
       b.state = State.SentServerHandshake1))


/-- The key the counterexample client expects from its peer. -/
def cxKey : PublicKey := List.replicate 32 0

/-- The (different) static key the counterexample peer actually presents. -/
def cxPeerKey : List Nat := 1 :: List.replicate 31 0

/-- A Noise oracle whose read succeeds with an empty payload and whose
remote static key is `cxPeerKey`, so the client authenticator rejects. -/
def cxOps : NoiseOps :=
  { write := fun _ _ => none
    read := fun st _ => some (st + 1, [])
    remote_static := fun _ => some cxPeerKey
    into_transport := fun _ => none }

/-- The counterexample session configuration (initiator, Client authenticator). -/
def cxConfig : SessionConfig :=
  { authenticator := .Client ⟨cxKey⟩, authentication_key := []
    peer_public_key := some cxKey, additional_data := [] }

/-- The builder produced by `MessageBuilder.new cxConfig true 0`. -/
def cxB0 : MessageBuilder :=
  { handshake_state := some 0, transport_state := none, state := .Init
    additional_data := [], authenticator := .Client ⟨cxKey⟩
    is_initiator := true, clock_skew := 0, peer_credentials := none }

/-- The builder after `sent_client_handshake1` and a
`received_server_handshake1` call rejected by the authenticator: credentials
are present but the state is still `SentClientHandshake1`. -/
def cxB2 : MessageBuilder :=
  { handshake_state := some 1, transport_state := none
    state := .SentClientHandshake1, additional_data := []
    authenticator := .Client ⟨cxKey⟩, is_initiator := true, clock_skew := 0
    peer_credentials := some ⟨[], cxPeerKey⟩ }


/-- The 20-byte header ciphertext on the C8 witness wire. -/
def w8hdrct : List Nat := List.replicate 20 7

/-- The 24-byte body ciphertext on the C8 witness wire. -/
def w8bodyct : List Nat := List.replicate 24 9

/-- A transport oracle for the C8 witness: decrypts the header ciphertext to
the length 24 and the body ciphertext to an encoded `NoOp`; encryption is the
identity. -/
def w8ops : TransportOps :=
  { write := fun st m => some (st, m)
    read := fun st ct =>
      if ct = w8hdrct then some (st, [0, 0, 0, 24])
      else if ct = w8bodyct then some (st, [0, 0, 0, 0, 0, 0, 0, 0])
      else none
    rekey_incoming := id, rekey_outgoing := id }

/-- An initiator session about to receive the responder finalize `NoOp`. -/
def w8init : Session :=
  { wire_in := w8hdrct ++ w8bodyct, wire_out := [], is_initiator := true
    transport_builder := wSendBuilder }

/-- The initiator session after the finalize receive (wire drained). -/
def w8initAfter : Session :=
  { wire_in := [], wire_out := [], is_initiator := true
    transport_builder := wSendBuilder }

/-- A responder session about to send the finalize `NoOp`. -/
def w8resp : Session :=
  { wire_in := [], wire_out := [], is_initiator := false
    transport_builder := wSendBuilder }

/-- The responder session after sending the finalize `NoOp`. -/
def w8respAfter : Session :=
  { wire_in := [], wire_out := [0, 0, 0, 24, 0, 0, 0, 0, 0, 0, 0, 0]
    is_initiator := false, transport_builder := wSendBuilder }

/-- A responder-side builder in `Init`, used by the C6 witness. -/
def w6builder : MessageBuilder :=
  { handshake_state := some 0, transport_state := none, state := .Init
    additional_data := [], authenticator := .Client ⟨[]⟩
    is_initiator := false, clock_skew := 0, peer_credentials := none }

/-- A Noise oracle all of whose calls fail, used by the C6 witness. -/
def w6ops : NoiseOps :=
  { write := fun _ _ => none, read := fun _ _ => none
    remote_static := fun _ => none, into_transport := fun _ => none }

/-- A 1601-byte frame with a bad prologue byte. -/
def w6badmsg : List Nat := 0 :: List.replicate 1600 7

/-- A 1601-byte frame with the correct prologue byte. -/
def w6goodmsg : List Nat := 1 :: List.replicate 1600 7

/-- C1: the claim states that decoding the encoding of any
`AuthenticateMessage {ad, t}` (with `|ad| ≤ 255`) succeeds and yields the same
message, the encoding being exactly 260 bytes. The code violates this (and its
own `authentication_message_test`): `to_vec` emits `1 + 255 + 4 = 260` bytes,
but `from_bytes` demands exactly `AUTH_MESSAGE_SIZE = 1 + 8 + 255 = 264` bytes
and rejects every encoding with `InvalidSize`. Evaluated here at the test's
own input `ad = [1,2,3]`, `t = 321`. -/
theorem C1_auth_roundtrip_code_bug :
    (AuthenticateMessage.to_vec { ad := [1, 2, 3], unix_time := 321 }).map
        List.length = some 260
    ∧ (AuthenticateMessage.to_vec { ad := [1, 2, 3], unix_time := 321 }).bind
        AuthenticateMessage.from_bytes = none
    ∧ AUTH_MESSAGE_SIZE = 264 := by
  refine ⟨rfl, ?_, rfl⟩
  decide

/-- C2: the claim states the on-wire frame sizes 1601 / 1940 / 328. Messages 1
and 3 match the code, but `NOISE_HANDSHAKE_MESSAGE2_SIZE = 1680 +
AUTH_MESSAGE_SIZE = 1944 ≠ 1940 = 1680 + 260`, even though the
`AuthenticateMessage` payload the responder actually Noise-writes is 260 bytes
long — so the code's own `assert_eq!(NOISE_HANDSHAKE_MESSAGE2_SIZE, _len)`
in `received_client_handshake1` contradicts the constant. -/
theorem C2_handshake_frame_sizes_code_bug :
    NOISE_HANDSHAKE_MESSAGE1_SIZE = 1601
    ∧ NOISE_HANDSHAKE_MESSAGE3_SIZE = 328
    ∧ (AuthenticateMessage.to_vec { ad := [], unix_time := 0 }).map
        List.length = some 260
    ∧ NOISE_HANDSHAKE_MESSAGE2_SIZE = 1944
    ∧ NOISE_HANDSHAKE_MESSAGE2_SIZE ≠ 1680 + 260 := by
  refine ⟨rfl, rfl, rfl, rfl, ?_⟩
  decide

/-- C4: `is_peer_valid` admits per variant: Client accepts exactly the single
configured key, Server accepts exactly the mix-set members, Provider accepts
exactly the union of its mix set and client set. -/
theorem C4_is_peer_valid_admission
    (cs : ClientAuthenticatorState) (ss : ServerAuthenticatorState)
    (ps : ProviderAuthenticatorState) (pc : PeerCredentials) :
    (((PeerAuthenticator.Client cs).is_peer_valid pc).2 = true ↔
        pc.public_key = cs.peer_public_key)
    ∧ (((PeerAuthenticator.Server ss).is_peer_valid pc).2 = true ↔
        pc.public_key ∈ ss.mix_map)
    ∧ (((PeerAuthenticator.Provider ps).is_peer_valid pc).2 = true ↔
        (pc.public_key ∈ ps.mix_map ∨ pc.public_key ∈ ps.client_map)) := by
  refine ⟨?_, ?_, ?_⟩
  · simp only [PeerAuthenticator.is_peer_valid, beq_iff_eq]
    exact eq_comm
  · simp only [PeerAuthenticator.is_peer_valid]
    exact List.elem_iff
  · by_cases hmix : pc.public_key ∈ ps.mix_map <;>
      by_cases hcl : pc.public_key ∈ ps.client_map <;>
      simp only [PeerAuthenticator.is_peer_valid, List.elem_iff, hmix, hcl,
        if_true, if_false, iff_true, iff_false, or_self, true_or, or_true] <;>
      simp [hmix, hcl]

/-- C5: for a Provider authenticator, a key in both sets is classified as a
mix (the mix check runs first): `from_mix` is set, `from_client` is left
untouched, so with the flags at their reset values a subsequent
`is_peer_client()` is `false`; a key only in the client set sets
`from_client`, making `is_peer_client()` `true`. -/
theorem C5_provider_tie_break
    (ps : ProviderAuthenticatorState) (pc : PeerCredentials) :
    (pc.public_key ∈ ps.mix_map → pc.public_key ∈ ps.client_map →
      ((PeerAuthenticator.Provider ps).is_peer_valid pc).1
          = .Provider { ps with from_mix := true }
      ∧ ((PeerAuthenticator.Provider ps).is_peer_valid pc).2 = true
      ∧ (ps.from_client = false →
          ((PeerAuthenticator.Provider ps).is_peer_valid pc).1.is_peer_client
            = false))
    ∧ (pc.public_key ∉ ps.mix_map → pc.public_key ∈ ps.client_map →
      ((PeerAuthenticator.Provider ps).is_peer_valid pc).1
          = .Provider { ps with from_client := true }
      ∧ ((PeerAuthenticator.Provider ps).is_peer_valid pc).2 = true
      ∧ ((PeerAuthenticator.Provider ps).is_peer_valid pc).1.is_peer_client
          = true) := by
  constructor
  · intro hmix _hcl
    simp [PeerAuthenticator.is_peer_valid, hmix, PeerAuthenticator.is_peer_client]
  · intro hmix hcl
    simp [PeerAuthenticator.is_peer_valid, hmix, hcl,
      PeerAuthenticator.is_peer_client]

/-- Witness for C5 at concrete inputs: the key `[7]` lies in both sets of the
first provider state (mix wins) and only in the client set of the second. -/
theorem C5_provider_tie_break_witness :
    ((PeerAuthenticator.Provider
        { mix_map := [[7]], client_map := [[7]], from_client := false
          from_mix := false }).is_peer_valid
        { additional_data := [], public_key := [7] }).1.is_peer_client = false
    ∧ ((PeerAuthenticator.Provider
        { mix_map := [], client_map := [[7]], from_client := false
          from_mix := false }).is_peer_valid
        { additional_data := [], public_key := [7] }).1.is_peer_client = true := by
  constructor
  · exact ((C5_provider_tie_break
      { mix_map := [[7]], client_map := [[7]], from_client := false
        from_mix := false }
      { additional_data := [], public_key := [7] }).1
      (by decide) (by decide)).2.2 rfl
  · exact ((C5_provider_tie_break
      { mix_map := [], client_map := [[7]], from_client := false
        from_mix := false }
      { additional_data := [], public_key := [7] }).2
      (by decide) (by decide)).2.2

lemma contains_eq_true_iff (l : List PublicKey) (x : PublicKey) :
    l.contains x = true ↔ x ∈ l := List.elem_iff

lemma contains_eq_false_iff (l : List PublicKey) (x : PublicKey) :
    l.contains x = false ↔ x ∉ l := by
  rw [← Bool.not_eq_true, contains_eq_true_iff]

lemma runValidations_cons (a : PeerAuthenticator) (pc : PeerCredentials)
    (l : List PeerCredentials) :
    runValidations a (pc :: l) = runValidations (a.is_peer_valid pc).1 l := rfl

/-- A Client authenticator is never mutated by `is_peer_valid`. -/
lemma runValidations_client (l : List PeerCredentials)
    (cs : ClientAuthenticatorState) :
    runValidations (.Client cs) l = .Client cs := by
  induction l with
  | nil => rfl
  | cons pc l ih => rw [runValidations_cons]; exact ih

/-- A Server authenticator is never mutated by `is_peer_valid`. -/
lemma runValidations_server (l : List PeerCredentials)
    (ss : ServerAuthenticatorState) :
    runValidations (.Server ss) l = .Server ss := by
  induction l with
  | nil => rfl
  | cons pc l ih => rw [runValidations_cons]; exact ih

/-- Effect of a sequence of `is_peer_valid` calls on a Provider authenticator:
the key sets are untouched; `from_mix` becomes true iff it was or some
presented key is in the mix set; `from_client` becomes true iff it was or some
presented key is in the client set but not in the mix set (the mix check runs
first). -/
lemma runValidations_provider (l : List PeerCredentials) :
    ∀ ps : ProviderAuthenticatorState,
    runValidations (.Provider ps) l = .Provider
      { mix_map := ps.mix_map
        client_map := ps.client_map
        from_client := ps.from_client ||
          l.any (fun pc => !ps.mix_map.contains pc.public_key &&
            ps.client_map.contains pc.public_key)
        from_mix := ps.from_mix ||
          l.any (fun pc => ps.mix_map.contains pc.public_key) } := by
  induction l with
  | nil => intro ps; simp [runValidations]
  | cons pc l ih =>
    intro ps
    rw [runValidations_cons]
    simp only [PeerAuthenticator.is_peer_valid]
    by_cases hmix : ps.mix_map.contains pc.public_key = true
    · rw [if_pos hmix, ih]
      simp only [List.any_cons, hmix, Bool.not_true, Bool.false_and,
        Bool.false_or, Bool.true_or, Bool.or_true]
    · rw [if_neg hmix]
      rw [Bool.not_eq_true] at hmix
      by_cases hcl : ps.client_map.contains pc.public_key = true
      · rw [if_pos hcl, ih]
        simp only [List.any_cons, hmix, hcl, Bool.not_false, Bool.true_and,
          Bool.false_or, Bool.true_or, Bool.or_true]
      · rw [if_neg hcl, ih]
        rw [Bool.not_eq_true] at hcl
        simp only [List.any_cons, hmix, hcl, Bool.not_false, Bool.true_and,
          Bool.and_false, Bool.false_or]

/-- C10: `is_peer_client` is identically false on Client and Server
authenticators, whatever sequence of `is_peer_valid` calls preceded; starting
from a Provider with the `from_client` flag at its reset value, it is true
after a call sequence exactly when some presented key was matched against the
client set (i.e. belongs to the client set and not to the mix set). -/
theorem C10_is_peer_client_only_provider (l : List PeerCredentials) :
    (∀ cs : ClientAuthenticatorState,
        (runValidations (.Client cs) l).is_peer_client = false)
    ∧ (∀ ss : ServerAuthenticatorState,
        (runValidations (.Server ss) l).is_peer_client = false)
    ∧ (∀ ps : ProviderAuthenticatorState, ps.from_client = false →
        ((runValidations (.Provider ps) l).is_peer_client = true ↔
          ∃ pc ∈ l, pc.public_key ∈ ps.client_map ∧ pc.public_key ∉ ps.mix_map)) := by
  refine ⟨?_, ?_, ?_⟩
  · intro cs; rw [runValidations_client]; rfl
  · intro ss; rw [runValidations_server]; rfl
  · intro ps hps
    rw [runValidations_provider l ps]
    simp only [PeerAuthenticator.is_peer_client, hps, Bool.false_or,
      List.any_eq_true, Bool.and_eq_true, Bool.not_eq_true',
      contains_eq_true_iff, contains_eq_false_iff]
    constructor
    · rintro ⟨pc, hpc, hnotmix, hcl⟩
      exact ⟨pc, hpc, hcl, hnotmix⟩
    · rintro ⟨pc, hpc, hcl, hnotmix⟩
      exact ⟨pc, hpc, hnotmix, hcl⟩

/-- Witness for C10 at a concrete call sequence: one credential whose key
`[5]` is only in the provider's client set; after the calls,
`is_peer_client()` is true. -/
theorem C10_is_peer_client_only_provider_witness :
    (runValidations
      (.Provider { mix_map := [], client_map := [[5]], from_client := false
                   from_mix := false })
      [{ additional_data := [], public_key := [5] }]).is_peer_client = true := by
  refine ((C10_is_peer_client_only_provider
      [{ additional_data := [], public_key := [5] }]).2.2
      { mix_map := [], client_map := [[5]], from_client := false
        from_mix := false } rfl).2 ?_
  exact ⟨{ additional_data := [], public_key := [5] }, by decide, by decide, by decide⟩

/-- C7: `send_command` rejects any command whose ciphertext body
`MAC_LEN + |to_vec|` would exceed `MAX_MSG_LEN = 1048576` with
`InvalidMessageSize`, leaving the session — wire and transport cipher state —
completely untouched, whatever the Noise transport oracle would do. -/
theorem C7_send_command_size_ceiling (s : Session) (ops : TransportOps)
    (cmd : Command) (h : MAC_LEN + cmd.to_vec.length > MAX_MSG_LEN) :
    s.send_command ops cmd
      = some (s, Except.error SendMessageError.InvalidMessageSize) := by
  simp only [Session.send_command, if_pos h]

/-- C6: with the responder in `Init`, a 1601-byte first frame whose first
byte differs from the prologue `0x01` is rejected with
`PrologueMismatchError`: the returned builder is the input builder unchanged
and the result does not depend on the Noise oracle at all (no Noise read is
performed). When the first byte is `0x01`, exactly the frame minus the
prologue byte is handed to the Noise read: a failing read on that suffix
yields `Noise1ReadError`, and any frame with the same suffix behaves
identically. -/
theorem C6_prologue_rejection (b : MessageBuilder) (ops : NoiseOps)
    (now : Nat) (message : List Nat) (hs : Nat)
    (hstate : b.state = State.Init)
    (hlen : message.length = NOISE_HANDSHAKE_MESSAGE1_SIZE) :
    (message.take PROLOGUE_SIZE ≠ PROLOGUE →
      b.received_client_handshake1 ops now message
        = some (b, Except.error ServerHandshakeError.PrologueMismatchError))
    ∧ (message.take PROLOGUE_SIZE = PROLOGUE →
      (b.handshake_state = some hs →
        ops.read hs (message.drop PROLOGUE_SIZE) = none →
        b.received_client_handshake1 ops now message
          = some (b, Except.error ServerHandshakeError.Noise1ReadError))
      ∧ ∀ message2 : List Nat, message2.take PROLOGUE_SIZE = PROLOGUE →
          message2.drop PROLOGUE_SIZE = message.drop PROLOGUE_SIZE →
          b.received_client_handshake1 ops now message2
            = b.received_client_handshake1 ops now message) := by
  have hsI : ¬ b.state ≠ State.Init := fun hcon => hcon hstate
  constructor
  · intro hmm
    rw [MessageBuilder.received_client_handshake1, if_neg hsI, if_pos hmm]
  · intro hpro
    constructor
    · intro hhs hread
      rw [MessageBuilder.received_client_handshake1, if_neg hsI,
        if_neg (fun hcon => hcon hpro), hhs]
      simp only [hread]
    · intro message2 hpro2 hdrop
      rw [MessageBuilder.received_client_handshake1, if_neg hsI,
        if_neg (fun hcon => hcon hpro2), hdrop,
        MessageBuilder.received_client_handshake1, if_neg hsI,
        if_neg (fun hcon => hcon hpro)]

/-- Witness for C6 at concrete inputs: the bad-prologue frame is rejected
with `PrologueMismatchError` and the builder is unchanged; the good-prologue
frame reaches the (here failing) Noise read. -/
theorem C6_prologue_rejection_witness :
    w6builder.received_client_handshake1 w6ops 0 w6badmsg
      = some (w6builder, Except.error ServerHandshakeError.PrologueMismatchError)
    ∧ w6builder.received_client_handshake1 w6ops 0 w6goodmsg
      = some (w6builder, Except.error ServerHandshakeError.Noise1ReadError) := by
  have hlenb : w6badmsg.length = NOISE_HANDSHAKE_MESSAGE1_SIZE := by
    rw [w6badmsg, NOISE_HANDSHAKE_MESSAGE1_SIZE, PROLOGUE_SIZE]
    rw [List.length_cons, List.length_replicate]
  have hleng : w6goodmsg.length = NOISE_HANDSHAKE_MESSAGE1_SIZE := by
    rw [w6goodmsg, NOISE_HANDSHAKE_MESSAGE1_SIZE, PROLOGUE_SIZE]
    rw [List.length_cons, List.length_replicate]
  constructor
  · exact (C6_prologue_rejection w6builder w6ops 0 w6badmsg 0 rfl hlenb).1
      (by rw [w6badmsg]; decide)
  · exact (((C6_prologue_rejection w6builder w6ops 0 w6goodmsg 0 rfl hleng).2
      (by rw [w6goodmsg]; rfl)).1 rfl rfl)

/-- Witness for C7: sending a `SendPacket` with a `MAX_MSG_LEN`-byte Sphinx
packet (encoded length `8 + 1048576`) fails with `InvalidMessageSize` and
changes nothing. -/
theorem C7_send_command_size_ceiling_witness :
    wSendSession.send_command wIdOps (.SendPacket (List.replicate MAX_MSG_LEN 0))
      = some (wSendSession, Except.error SendMessageError.InvalidMessageSize) := by
  apply C7_send_command_size_ceiling
  have hlen : (Command.to_vec (.SendPacket (List.replicate MAX_MSG_LEN 0))).length
      = 8 + MAX_MSG_LEN := by
    simp only [Command.to_vec, Command.body, writeU32BE, List.length_append,
      List.length_cons, List.length_nil, List.length_replicate]
  rw [hlen]
  decide

/-- Unfolding `to_vec`: a successful encoding means `|ad| ≤ 255` and the
payload is the length byte, the data, the zero padding and the big-endian
timestamp. -/
lemma to_vec_eq (ad : List Nat) (t : Nat) (payload : List Nat)
    (h : AuthenticateMessage.to_vec { ad := ad, unix_time := t } = some payload) :
    ad.length ≤ MAX_ADDITIONAL_DATA_SIZE ∧
    payload = ad.length % 256 ::
      (ad ++ (List.replicate (MAX_ADDITIONAL_DATA_SIZE - ad.length) 0 ++
        writeU32BE t)) := by
  by_cases hlen : ad.length > MAX_ADDITIONAL_DATA_SIZE
  · rw [AuthenticateMessage.to_vec, if_pos hlen] at h
    cases h
  · rw [AuthenticateMessage.to_vec, if_neg hlen] at h
    refine ⟨Nat.le_of_not_lt hlen, ?_⟩
    have hp := Option.some.inj h
    rw [← hp]
    simp only [List.append_assoc, List.cons_append, List.nil_append]

/-- The handshake read path: `from_bytes` applied to the 264-byte `raw_auth`
buffer that a successful Noise read filled with a `to_vec` encoding recovers
exactly the encoded message (the length check passes because the buffer — not
the 260-byte payload — is 264 bytes long). -/
lemma from_bytes_bufferFill (ad : List Nat) (t : Nat) (payload : List Nat)
    (h : AuthenticateMessage.to_vec { ad := ad, unix_time := t } = some payload)
    (ht : t < 2 ^ 32) :
    AuthenticateMessage.from_bytes (bufferFill AUTH_MESSAGE_SIZE payload)
      = some { ad := ad, unix_time := t } := by
  obtain ⟨hL, hp⟩ := to_vec_eq ad t payload h
  have hL' : ad.length ≤ 255 := hL
  have hmod : ad.length % 256 = ad.length := Nat.mod_eq_of_lt (by omega)
  subst hp
  have hplen : (ad.length % 256 ::
      (ad ++ (List.replicate (MAX_ADDITIONAL_DATA_SIZE - ad.length) 0 ++
        writeU32BE t))).length = 260 := by
    simp only [List.length_cons, List.length_append, List.length_replicate,
      writeU32BE, MAX_ADDITIONAL_DATA_SIZE, List.length_nil]
    omega
  have hsub : AUTH_MESSAGE_SIZE - 260 = 4 := by
    rw [AUTH_MESSAGE_SIZE, MAX_ADDITIONAL_DATA_SIZE]
  have hraw : bufferFill AUTH_MESSAGE_SIZE
      (ad.length % 256 ::
        (ad ++ (List.replicate (MAX_ADDITIONAL_DATA_SIZE - ad.length) 0 ++
          writeU32BE t)))
      = ad.length % 256 ::
        (ad ++ (List.replicate (MAX_ADDITIONAL_DATA_SIZE - ad.length) 0 ++
          (writeU32BE t ++ List.replicate 4 0))) := by
    rw [bufferFill, hplen, hsub,
      List.take_of_length_le (le_of_eq_of_le hplen
        (by rw [AUTH_MESSAGE_SIZE, MAX_ADDITIONAL_DATA_SIZE]; omega))]
    simp only [List.cons_append, List.append_assoc]
  rw [hraw]
  have hrawlen : (ad.length % 256 ::
      (ad ++ (List.replicate (MAX_ADDITIONAL_DATA_SIZE - ad.length) 0 ++
        (writeU32BE t ++ List.replicate 4 0)))).length = AUTH_MESSAGE_SIZE := by
    simp only [List.length_cons, List.length_append, List.length_replicate,
      writeU32BE, MAX_ADDITIONAL_DATA_SIZE, List.length_nil, AUTH_MESSAGE_SIZE]
    omega
  rw [AuthenticateMessage.from_bytes, if_neg (fun hcon => hcon hrawlen)]
  have hgetD : (ad.length % 256 ::
      (ad ++ (List.replicate (MAX_ADDITIONAL_DATA_SIZE - ad.length) 0 ++
        (writeU32BE t ++ List.replicate 4 0)))).getD 0 0 = ad.length := by
    rw [List.getD_cons_zero, hmod]
  have hdrop1 : ((ad.length % 256 ::
      (ad ++ (List.replicate (MAX_ADDITIONAL_DATA_SIZE - ad.length) 0 ++
        (writeU32BE t ++ List.replicate 4 0)))).drop 1).take ad.length = ad := by
    rw [List.drop_one, List.tail_cons, ← List.append_assoc]
    have := List.take_left ad
      (List.replicate (MAX_ADDITIONAL_DATA_SIZE - ad.length) 0 ++
        (writeU32BE t ++ List.replicate 4 0))
    rw [List.append_assoc]
    exact this
  have hdrop256 : (ad.length % 256 ::
      (ad ++ (List.replicate (MAX_ADDITIONAL_DATA_SIZE - ad.length) 0 ++
        (writeU32BE t ++ List.replicate 4 0)))).drop (1 + MAX_ADDITIONAL_DATA_SIZE)
      = writeU32BE t ++ List.replicate 4 0 := by
    have hshape : ad.length % 256 ::
        (ad ++ (List.replicate (MAX_ADDITIONAL_DATA_SIZE - ad.length) 0 ++
          (writeU32BE t ++ List.replicate 4 0)))
        = (ad.length % 256 ::
            (ad ++ List.replicate (MAX_ADDITIONAL_DATA_SIZE - ad.length) 0)) ++
          (writeU32BE t ++ List.replicate 4 0) := by
      simp only [List.cons_append, List.append_assoc]
    rw [hshape]
    refine List.drop_left' ?_
    simp only [List.length_cons, List.length_append, List.length_replicate,
      MAX_ADDITIONAL_DATA_SIZE]
    omega
  have hread : readU32BE (writeU32BE t ++ List.replicate 4 0) = t := by
    simp only [writeU32BE, List.cons_append, List.nil_append, readU32BE,
      List.getD_cons_zero, List.getD_cons_succ]
    omega
  simp only [hgetD, hdrop1, hdrop256, hread]

/-- C9: in `received_server_handshake1`, when the Noise read yields an
encoded `AuthenticateMessage` with timestamp `peer_time` and the authenticator
accepts, the call succeeds and caches
`clock_skew = now.wrapping_sub(peer_time)` — the unsigned 32-bit difference,
which equals `(now - peer_time) mod 2^32` as integers and in particular wraps
when `now < peer_time` rather than failing. -/
theorem C9_clock_skew_wraps (b : MessageBuilder) (ops : NoiseOps)
    (now peer_time : Nat) (message ad payload rawkey : List Nat) (hs hs2 : Nat)
    (hhs : b.handshake_state = some hs)
    (hread : ops.read hs message = some (hs2, payload))
    (hpayload : AuthenticateMessage.to_vec { ad := ad, unix_time := peer_time }
      = some payload)
    (hnow : now < 2 ^ 32) (ht : peer_time < 2 ^ 32)
    (hkey : ops.remote_static hs2 = some rawkey)
    (hklen : ¬ rawkey.length < KEY_SIZE)
    (hvalid : (b.authenticator.is_peer_valid
      { additional_data := ad, public_key := rawkey.take KEY_SIZE }).2 = true) :
    ∃ b', b.received_server_handshake1 ops now message
        = some (b', Except.ok ())
      ∧ b'.clock_skew = (now + (2 ^ 32 - peer_time)) % 2 ^ 32
      ∧ (b'.clock_skew : Int) = ((now : Int) - (peer_time : Int)) % 2 ^ 32 := by
  rw [MessageBuilder.received_server_handshake1, hhs]
  simp only [hread, from_bytes_bufferFill ad peer_time payload hpayload ht,
    hkey, if_neg hklen, hvalid, if_true]
  refine ⟨_, rfl, ?_, ?_⟩
  · show wrapSub32 now peer_time = (now + (2 ^ 32 - peer_time)) % 2 ^ 32
    rw [wrapSub32]
    omega
  · show ((wrapSub32 now peer_time : Nat) : Int)
      = ((now : Int) - (peer_time : Int)) % 2 ^ 32
    rw [wrapSub32]
    omega

/-- Witness for C9 at a concrete wrapping input: local time 5, peer time 100;
the handshake step succeeds and the cached skew is `2^32 - 95`. -/
theorem C9_clock_skew_wraps_witness :
    ∃ b', w9builder.received_server_handshake1 w9ops 5 []
        = some (b', Except.ok ())
      ∧ b'.clock_skew = 4294967201 := by
  obtain ⟨b', h1, h2, _⟩ := C9_clock_skew_wraps w9builder w9ops 5 100 [] []
    w9payload w9key 0 1 rfl rfl rfl (by norm_num) (by norm_num) rfl
    (by decide) (by decide)
  exact ⟨b', h1, by rw [h2]; norm_num⟩

/-- `recv_command` never writes to the stream: `wire_out` is preserved. -/
lemma recv_command_wire_out (s : Session) (ops : TransportOps)
    (s2 : Session) (r : Except ReceiveMessageError Command)
    (h : s.recv_command ops = some (s2, r)) : s2.wire_out = s.wire_out := by
  simp only [Session.recv_command] at h
  repeat' split at h
  all_goals (try cases h)
  all_goals rfl
/-- C8: `finalize_handshake` on the initiator receives exactly one command
and sends nothing (`wire_out` unchanged): a received `NoOp` yields `Ok`, any
other command yields `InvalidHandshakeFinalize`; on the responder it is
exactly a `send_command` of `NoOp`. -/
theorem C8_finalize_handshake (s s2 : Session) (ops : TransportOps)
    (cmd : Command) :
    (s.is_initiator = true →
      s.recv_command ops = some (s2, Except.ok cmd) →
      s.finalize_handshake ops
          = some (s2, if cmd = Command.NoOp then Except.ok ()
              else Except.error HandshakeError.InvalidHandshakeFinalize)
        ∧ s2.wire_out = s.wire_out)
    ∧ (s.is_initiator = false →
      s.send_command ops Command.NoOp = some (s2, Except.ok ()) →
      s.finalize_handshake ops = some (s2, Except.ok ())) := by
  constructor
  · intro hinit hrecv
    refine ⟨?_, recv_command_wire_out s ops s2 _ hrecv⟩
    rw [Session.finalize_handshake, if_pos hinit, hrecv]
    cases cmd <;> simp
  · intro hinit hsend
    rw [Session.finalize_handshake, if_neg (by rw [hinit]; exact Bool.false_ne_true),
      hsend]

/-- `client_handshake1` never touches `state` or `peer_credentials`. -/
lemma client_handshake1_shape (b : MessageBuilder) (ops : NoiseOps)
    (b' : MessageBuilder) (r : Except ClientHandshakeError (List Nat))
    (h : b.client_handshake1 ops = some (b', r)) :
    b'.state = b.state ∧ b'.peer_credentials = b.peer_credentials := by
  simp only [MessageBuilder.client_handshake1] at h
  repeat' split at h
  all_goals (try cases h)
  all_goals exact ⟨rfl, rfl⟩

/-- `client_handshake2` never touches `state` or `peer_credentials`. -/
lemma client_handshake2_shape (b : MessageBuilder) (ops : NoiseOps)
    (b' : MessageBuilder) (r : Except ClientHandshakeError (List Nat))
    (h : b.client_handshake2 ops = some (b', r)) :
    b'.state = b.state ∧ b'.peer_credentials = b.peer_credentials := by
  simp only [MessageBuilder.client_handshake2] at h
  repeat' split at h
  all_goals (try cases h)
  all_goals exact ⟨rfl, rfl⟩

/-- `received_server_handshake1` either leaves the state unchanged (every
error path, including the authenticator rejection that has already stored
`peer_credentials`) or succeeds into `ReceivedServerHandshake1` with
credentials present. -/
lemma received_server_handshake1_shape (b : MessageBuilder) (ops : NoiseOps)
    (now : Nat) (message : List Nat) (b' : MessageBuilder)
    (r : Except ClientHandshakeError Unit)
    (h : b.received_server_handshake1 ops now message = some (b', r)) :
    b'.state = b.state ∨
      (b'.state = State.ReceivedServerHandshake1 ∧
        b'.peer_credentials.isSome = true) := by
  simp only [MessageBuilder.received_server_handshake1] at h
  repeat' split at h
  all_goals (try cases h)
  all_goals first
    | exact Or.inl rfl
    | exact Or.inr ⟨rfl, rfl⟩

/-- `received_client_handshake1` never touches `peer_credentials`; it leaves
the state unchanged or moves `Init` to `ReceivedClientHandshake1`. -/
lemma received_client_handshake1_shape (b : MessageBuilder) (ops : NoiseOps)
    (now : Nat) (message : List Nat) (b' : MessageBuilder)
    (r : Except ServerHandshakeError (List Nat))
    (h : b.received_client_handshake1 ops now message = some (b', r)) :
    b'.peer_credentials = b.peer_credentials ∧
      (b'.state = b.state ∨
        (b.state = State.Init ∧ b'.state = State.ReceivedClientHandshake1)) := by
  simp only [MessageBuilder.received_client_handshake1] at h
  repeat' split at h
  all_goals (try cases h)
  all_goals first
    | exact ⟨rfl, Or.inl rfl⟩
    | exact ⟨rfl, Or.inr ⟨not_not.1 ‹¬(b.state ≠ State.Init)›, rfl⟩⟩

/-- `received_client_handshake2` leaves state and credentials unchanged, or
errors from `SentServerHandshake1` keeping the state (possibly storing
credentials first), or succeeds into `DataTransfer` with credentials. -/
lemma received_client_handshake2_shape (b : MessageBuilder) (ops : NoiseOps)
    (message : List Nat) (b' : MessageBuilder)
    (r : Except ServerHandshakeError Unit)
    (h : b.received_client_handshake2 ops message = some (b', r)) :
    (b'.state = b.state ∧ b'.peer_credentials = b.peer_credentials) ∨
      (b.state = State.SentServerHandshake1 ∧ b'.state = b.state) ∨
      (b'.state = State.DataTransfer ∧ b'.peer_credentials.isSome = true) := by
  simp only [MessageBuilder.received_client_handshake2] at h
  repeat' split at h
  all_goals (try cases h)
  all_goals first
    | exact Or.inl ⟨rfl, rfl⟩
    | exact Or.inr (Or.inr ⟨rfl, rfl⟩)
    | exact Or.inr (Or.inl
        ⟨not_not.1 ‹¬(b.state ≠ State.SentServerHandshake1)›, rfl⟩)

/-- `into_transport_mode` never touches `state` or `peer_credentials`. -/
lemma into_transport_mode_shape (b : MessageBuilder) (ops : NoiseOps)
    (b' : MessageBuilder)
    (h : b.into_transport_mode ops = some (.ok b')) :
    b'.state = b.state ∧ b'.peer_credentials = b.peer_credentials := by
  simp only [MessageBuilder.into_transport_mode] at h
  repeat' split at h
  all_goals (try cases h)
  all_goals exact ⟨rfl, rfl⟩


/-- `CredInvAmended` only depends on the `state` and `peer_credentials` fields. -/
lemma amended_congr (b b' : MessageBuilder) (hst : b'.state = b.state)
    (hcred : b'.peer_credentials = b.peer_credentials)
    (h : CredInvAmended b) : CredInvAmended b' := by
  rw [CredInvAmended, hst, hcred]; exact h

/-- Any builder sitting in `SentClientHandshake1` satisfies the amended invariant. -/
lemma amended_of_sch1 (b' : MessageBuilder)
    (h : b'.state = State.SentClientHandshake1) : CredInvAmended b' := by
  constructor
  · intro hc; rw [h] at hc
    rcases hc with hc | hc | hc <;> exact absurd hc (by decide)
  · intro _; rw [h]; exact Or.inr (Or.inr (Or.inr (Or.inl rfl)))

/-- Any builder sitting in `SentServerHandshake1` satisfies the amended invariant. -/
lemma amended_of_ssh1 (b' : MessageBuilder)
    (h : b'.state = State.SentServerHandshake1) : CredInvAmended b' := by
  constructor
  · intro hc; rw [h] at hc
    rcases hc with hc | hc | hc <;> exact absurd hc (by decide)
  · intro _; rw [h]; exact Or.inr (Or.inr (Or.inr (Or.inr rfl)))

/-- A builder without credentials outside the claimed states satisfies the amended invariant. -/
lemma amended_of_none (b' : MessageBuilder)
    (hcred : b'.peer_credentials.isSome = false)
    (h1 : b'.state ≠ State.ReceivedServerHandshake1)
    (h2 : b'.state ≠ State.DataTransfer)
    (h3 : b'.state ≠ State.Disconnected) : CredInvAmended b' := by
  constructor
  · intro hc; rcases hc with hc | hc | hc
    exacts [absurd hc h1, absurd hc h2, absurd hc h3]
  · intro hc; rw [hcred] at hc; cases hc

/-- A builder with credentials in a claimed state satisfies the amended invariant. -/
lemma amended_of_some3 (b' : MessageBuilder)
    (hcred : b'.peer_credentials.isSome = true)
    (h : b'.state = State.ReceivedServerHandshake1 ∨
      b'.state = State.DataTransfer) : CredInvAmended b' := by
  constructor
  · intro _; exact hcred
  · intro _
    rcases h with h | h
    · exact Or.inl h
    · exact Or.inr (Or.inl h)

/-- Every driver-ordered builder operation preserves the amended invariant. -/
lemma step_preserves_amended (b b' : MessageBuilder) (hstep : Step b b')
    (hinv : CredInvAmended b) : CredInvAmended b' := by
  have hnone_of : ∀ (st : State), b.state = st →
      st ≠ State.ReceivedServerHandshake1 → st ≠ State.DataTransfer →
      st ≠ State.Disconnected → st ≠ State.SentClientHandshake1 →
      st ≠ State.SentServerHandshake1 → b.peer_credentials.isSome = false := by
    intro st hst h1 h2 h3 h4 h5
    cases hc : b.peer_credentials.isSome
    · rfl
    · rcases hinv.2 hc with h | h | h | h | h <;> rw [hst] at h
      exacts [absurd h h1, absurd h h2, absurd h h3, absurd h h4, absurd h h5]
  cases hstep with
  | client_handshake1 _ ops r hin hst hcall =>
    obtain ⟨hs1, hs2⟩ := client_handshake1_shape _ _ _ _ hcall
    refine amended_of_none b' ?_ ?_ ?_ ?_
    · rw [hs2]
      exact hnone_of State.Init hst (by decide) (by decide) (by decide)
        (by decide) (by decide)
    · rw [hs1, hst]; decide
    · rw [hs1, hst]; decide
    · rw [hs1, hst]; decide
  | sent_client_handshake1 hin hst =>
    exact amended_of_sch1 _ rfl
  | received_server_handshake1 _ ops now message r hin hst hcall =>
    rcases received_server_handshake1_shape _ _ _ _ _ _ hcall with h | ⟨h1, h2⟩
    · exact amended_of_sch1 _ (h.trans hst)
    · exact amended_of_some3 _ h2 (Or.inl h1)
  | client_handshake2 _ ops r hin hst hcall =>
    obtain ⟨hs1, hs2⟩ := client_handshake2_shape _ _ _ _ hcall
    refine amended_of_some3 _ ?_ (Or.inl (hs1.trans hst))
    rw [hs2]
    exact hinv.1 (Or.inl hst)
  | sent_client_handshake2 hin hst =>
    exact amended_of_some3 _ (hinv.1 (Or.inl hst)) (Or.inr rfl)
  | received_client_handshake1 _ ops now message r hin hcall =>
    obtain ⟨hcred, hd⟩ := received_client_handshake1_shape _ _ _ _ _ _ hcall
    rcases hd with hd | ⟨hInit, hRCH1⟩
    · exact amended_congr _ _ hd hcred hinv
    · refine amended_of_none b' ?_ ?_ ?_ ?_
      · rw [hcred]
        exact hnone_of State.Init hInit (by decide) (by decide) (by decide)
          (by decide) (by decide)
      · rw [hRCH1]; decide
      · rw [hRCH1]; decide
      · rw [hRCH1]; decide
  | sent_server_handshake1 hin hst =>
    exact amended_of_ssh1 _ rfl
  | received_client_handshake2 _ ops message r hin hcall =>
    rcases received_client_handshake2_shape _ _ _ _ _ hcall with
      ⟨hs1, hs2⟩ | ⟨hSSH1, hs1⟩ | ⟨hDT, hsome⟩
    · exact amended_congr _ _ hs1 hs2 hinv
    · exact amended_of_ssh1 _ (hs1.trans hSSH1)
    · exact amended_of_some3 _ hsome (Or.inr hDT)
  | into_transport_mode _ ops hst hcall =>
    obtain ⟨hs1, hs2⟩ := into_transport_mode_shape _ _ _ hcall
    exact amended_congr _ _ hs1 hs2 hinv
  | wipe =>
    exact amended_congr _ _ rfl rfl hinv

/-- A freshly built `MessageBuilder` satisfies the amended invariant. -/
lemma new_amended (cfg : SessionConfig) (ii : Bool) (hs : Nat)
    (b0 : MessageBuilder)
    (h : MessageBuilder.new cfg ii hs = .ok b0) : CredInvAmended b0 := by
  rw [MessageBuilder.new] at h
  split at h
  · cases h
  · cases h
    exact amended_of_none _ rfl (fun hc => State.noConfusion hc)
      (fun hc => State.noConfusion hc) (fun hc => State.noConfusion hc)

/-- C3 (amended): in every reachable builder state, `peer_credentials` is
present whenever `state ∈ {ReceivedServerHandshake1, DataTransfer,
Disconnected}`, and conversely a present `peer_credentials` implies the state
is one of those three or `SentClientHandshake1` / `SentServerHandshake1` —
the two extra states arise exactly on the authenticator-rejection error paths
the original claim asserts to be safe. -/
theorem C3_credentials_invariant_amended (b : MessageBuilder)
    (h : Reachable b) : CredInvAmended b := by
  obtain ⟨cfg, ii, hs, b0, hnew, hrtg⟩ := h
  induction hrtg with
  | refl => exact new_amended cfg ii hs b0 hnew
  | tail _ hstep ih => exact step_preserves_amended _ _ hstep ih

/-- C3 (counterexample): the builder `cxB2` is reachable — initiator flow,
message 2 read succeeds, authenticator rejects the peer key — yet it violates
the claimed iff-invariant: `peer_credentials` is present while the state is
`SentClientHandshake1`. -/
theorem C3_credentials_invariant_counterexample :
    Reachable cxB2 ∧ ¬ CredInv cxB2 := by
  constructor
  · refine ⟨cxConfig, true, 0, cxB0, rfl, ?_⟩
    refine Relation.ReflTransGen.tail (Relation.ReflTransGen.single
      (Step.sent_client_handshake1 cxB0 rfl rfl)) ?_
    exact Step.received_server_handshake1 cxB0.sent_client_handshake1 cxB2 cxOps
      0 [] (.error .AuthenticationError) rfl rfl (by rfl)
  · rw [CredInv]
    decide

/-- Witness for C3 (amended) at the concrete reachable builder `cxB2`. -/
theorem C3_credentials_invariant_amended_witness : CredInvAmended cxB2 := by
  apply C3_credentials_invariant_amended
  refine ⟨cxConfig, true, 0, cxB0, rfl, ?_⟩
  refine Relation.ReflTransGen.tail (Relation.ReflTransGen.single
    (Step.sent_client_handshake1 cxB0 rfl rfl)) ?_
  exact Step.received_server_handshake1 cxB0.sent_client_handshake1 cxB2 cxOps
    0 [] (.error .AuthenticationError) rfl rfl (by rfl)

/-- Witness for C8 at concrete sessions: the initiator receives the `NoOp`
and finalizes `Ok` without writing; the responder's finalize writes exactly
the encrypted `NoOp` pair. -/
theorem C8_finalize_handshake_witness :
    w8init.finalize_handshake w8ops = some (w8initAfter, Except.ok ())
    ∧ w8resp.finalize_handshake w8ops = some (w8respAfter, Except.ok ()) := by
  constructor
  · have h := (C8_finalize_handshake w8init w8initAfter w8ops Command.NoOp).1
      rfl (by rfl)
    rw [h.1]
    rfl
  · exact (C8_finalize_handshake w8resp w8respAfter w8ops Command.NoOp).2
      rfl (by rfl)

end MixLink
